import Mathlib

/-!
Verification development for the picklist export tool.

The repository contains a script variant (`Version_2/picklist_export.py`) and
GUI variants (`Version_4/picklistExport_GUI_2.py`, `picklistExport_GUI_4.py`)
built around the same core: a four-strategy picklist-value resolution chain,
a per-object processor and a statistics-accumulating export aggregator.
This file gives a shallow embedding of that core, faithful to the Python
source: remote responses become explicit data passed to the functions, and
Python exceptions become `Except` values; Python dictionary access through
`.get` (which conflates a missing key and an explicit `null` value) is
modelled with `Option` fields whose value type distinguishes `null`.
-/

/-- Semantics of Python's substring test: `startsWithChars s p` is true when
the character list `s` begins with `p`. -/
def startsWithChars : List Char → List Char → Bool
  | _, [] => true
  | [], _ :: _ => false
  | a :: s, b :: t => a == b && startsWithChars s t

/-- `containsChars s p` is true when `p` occurs contiguously inside `s`. -/
def containsChars : List Char → List Char → Bool
  | [], pat => pat.isEmpty
  | a :: rest, pat => startsWithChars (a :: rest) pat || containsChars rest pat

/-- Python's `pat in s` on strings. -/
def pyInStr (pat s : String) : Bool :=
  containsChars s.data pat.data

/-- Python's `s.endswith(suffix)`. -/
def pyEndsWith (s suffix : String) : Bool :=
  decide (suffix.data.length ≤ s.data.length) &&
    s.data.drop (s.data.length - suffix.data.length) == suffix.data

/-- Python's slice `s[:-3]` (drop the last three characters). -/
def pyDropRight3 (s : String) : String :=
  String.mk (s.data.take (s.data.length - 3))

/-- A Python value as it may appear in a decoded JSON payload.  `null` stands
for Python `None`. -/
inductive PyVal where
  | null
  | bool (b : Bool)
  | str (s : String)
  | int (n : Int)
deriving DecidableEq, Repr

/-- Python's `bool(...)` coercion (truthiness) on `PyVal`. -/
def pyTruthy : PyVal → Bool
  | .null => false
  | .bool b => b
  | .str s => !s.isEmpty
  | .int n => n != 0

/-- Mirrors the `PicklistValueDetail` class shared by all versions. -/
structure PicklistValueDetail where
  label : String
  value : String
  is_active : Bool := true
deriving DecidableEq, Repr

/-- One raw dictionary entry of a value list from the tooling metadata.
`Option.none` in a field means the key is absent; `some PyVal.null` in
`isActive` means the key is present with an explicit `null`.  `label`,
`valueName` and `value` are modelled for string-valued payloads. -/
structure RawEntry where
  label : Option String := none
  valueName : Option String := none
  value : Option String := none
  isActive : Option PyVal := none
deriving DecidableEq, Repr

/-- An element of a raw value list: a proper dictionary entry, or some other
value (for which Python's `v.get(...)` raises `AttributeError`). -/
inductive RawItem where
  | dict (e : RawEntry)
  | other (v : PyVal)
deriving DecidableEq, Repr

/-- The dictionary stored under `valueSetDefinition`. -/
structure ValueSetDefinition where
  value : Option (List RawItem) := none
deriving DecidableEq, Repr

/-- The dictionary stored under `valueSet`. -/
structure ValueSet where
  valueSetDefinition : Option ValueSetDefinition := none
  value : Option (List RawItem) := none
deriving DecidableEq, Repr

/-- The `Metadata` payload handed to `_parse_value_set`. -/
structure FieldMetadata where
  valueSet : Option ValueSet := none
deriving DecidableEq, Repr

/-- Python's `a or b` for the string-or-missing values fed to
`v.get('valueName') or v.get('value', '')`. -/
def pyOrStr (a : Option String) (b : String) : String :=
  match a with
  | some s => if s.isEmpty then b else s
  | none => b

/-- One loop body iteration of `Version_2/picklist_export.py`
`_parse_value_set` (also `picklistExport_GUI_2.py`): `v.get('isActive')`
returns `None` both when the key is absent and when it holds `null`, and the
code maps `None` to `True`, otherwise applies `bool(...)`. -/
def parseEntryV2 (v : RawEntry) : PicklistValueDetail :=
  { label := v.label.getD ""
    value := pyOrStr v.valueName (v.value.getD "")
    is_active :=
      match v.isActive with
      | none => true
      | some .null => true
      | some w => pyTruthy w }

/-- One loop body iteration of `picklistExport_GUI_4.py` `_parse_value_set`:
`bool(v.get('isActive', True))`, which yields `False` for an explicit
`null`. -/
def parseEntryG4 (v : RawEntry) : PicklistValueDetail :=
  { label := v.label.getD ""
    value := pyOrStr v.valueName (v.value.getD "")
    is_active :=
      match v.isActive with
      | none => true
      | some w => pyTruthy w }

/-- The entry loop of `Version_2` `_parse_value_set`.  The whole loop sits
inside one `try`, so the first non-dictionary item raises and the `except`
returns the results accumulated so far. -/
def parseItemsV2 : List RawItem → List PicklistValueDetail → List PicklistValueDetail
  | [], acc => acc
  | .dict e :: rest, acc => parseItemsV2 rest (acc ++ [parseEntryV2 e])
  | .other _ :: _, acc => acc

/-- The entry loop of `picklistExport_GUI_4.py` `_parse_value_set`; same
exception structure as `parseItemsV2` but with the GUI_4 entry parse. -/
def parseItemsG4 : List RawItem → List PicklistValueDetail → List PicklistValueDetail
  | [], acc => acc
  | .dict e :: rest, acc => parseItemsG4 rest (acc ++ [parseEntryG4 e])
  | .other _ :: _, acc => acc

/-- `Version_2/picklist_export.py` `_parse_value_set`: explicit branching on
`'valueSetDefinition' in value_set` / `'value' in value_set`.  The guard
`if not value_set` is the truthiness of the dictionary, i.e. both modelled
keys absent. -/
def parseValueSetV2 (metadata : FieldMetadata) : List PicklistValueDetail :=
  match metadata.valueSet with
  | none => []
  | some value_set =>
    if value_set.valueSetDefinition.isNone && value_set.value.isNone then []
    else
      match value_set.valueSetDefinition with
      | some vsd => parseItemsV2 (vsd.value.getD []) []
      | none =>
        match value_set.value with
        | some values => parseItemsV2 values []
        | none => []

/-- `picklistExport_GUI_4.py` `_parse_value_set`: key selection via
`value_set.get('valueSetDefinition', {}).get('value', []) or
value_set.get('value', [])`. -/
def parseValueSetG4 (metadata : FieldMetadata) : List PicklistValueDetail :=
  match metadata.valueSet with
  | none => []
  | some value_set =>
    if value_set.valueSetDefinition.isNone && value_set.value.isNone then []
    else
      let fromVsd := ((value_set.valueSetDefinition.getD {}).value).getD []
      let values := if fromVsd.isEmpty then value_set.value.getD [] else fromVsd
      parseItemsG4 values []

/-- `picklistExport_GUI_2.py` `_parse_value_set`: GUI_4's key selection
combined with `Version_2`'s `isActive` handling. -/
def parseValueSetG2 (metadata : FieldMetadata) : List PicklistValueDetail :=
  match metadata.valueSet with
  | none => []
  | some value_set =>
    if value_set.valueSetDefinition.isNone && value_set.value.isNone then []
    else
      let fromVsd := ((value_set.valueSetDefinition.getD {}).value).getD []
      let values := if fromVsd.isEmpty then value_set.value.getD [] else fromVsd
      parseItemsV2 values []

/-- One raw `picklistValues` entry of a REST describe payload. -/
structure RestPicklistValue where
  label : Option String := none
  value : Option String := none
  active : Option PyVal := none
deriving DecidableEq, Repr

/-- The value construction of `Version_2` `_query_rest_describe_for_picklist`:
`active_value = pv.get('active'); is_active = True if active_value is None
else bool(active_value)`. -/
def parseRestValueV2 (pv : RestPicklistValue) : PicklistValueDetail :=
  { label := pv.label.getD ""
    value := pv.value.getD ""
    is_active :=
      match pv.active with
      | none => true
      | some .null => true
      | some w => pyTruthy w }

/-- Mock responses of the four resolution strategies for one (object, field)
pair: the parsed value lists that `_query_field_definition_tooling`,
`_query_custom_field_tooling`, `_query_custom_field_tooling_table_enum` and
`_query_rest_describe_for_picklist` would return.  A strategy whose request
fails, times out, finds no record, or parses to nothing is an empty list,
exactly as in the source where every error path returns `[]`. -/
structure StrategyEnv where
  fieldDef : List PicklistValueDetail := []
  customById : List PicklistValueDetail := []
  customByTable : List PicklistValueDetail := []
  restDescribe : List PicklistValueDetail := []
deriving DecidableEq, Repr

/-- `_query_picklist_values_with_fallback` (identical in `Version_2`,
`GUI_2` and `GUI_4`): strategy 1, then — only when an entity definition id
was resolved — strategy 2, then strategy 3, then strategy 4; the first
non-empty list is returned, else `[]`.  `entity_def_id` is `none` when
`_resolve_entity_definition_id` returned `None` (a falsy id). -/
def queryPicklistValuesWithFallback (env : StrategyEnv)
    (entity_def_id : Option String) : List PicklistValueDetail :=
  if !env.fieldDef.isEmpty then env.fieldDef
  else if entity_def_id.isSome && !env.customById.isEmpty then env.customById
  else if !env.customByTable.isEmpty then env.customByTable
  else if !env.restDescribe.isEmpty then env.restDescribe
  else []

/-- The same control flow as `queryPicklistValuesWithFallback`, additionally
recording which strategies were invoked (in invocation order, numbered
1-4). -/
def fallbackWithTrace (env : StrategyEnv)
    (entity_def_id : Option String) : List PicklistValueDetail × List Nat :=
  if !env.fieldDef.isEmpty then (env.fieldDef, [1])
  else
    match entity_def_id with
    | some _ =>
      if !env.customById.isEmpty then (env.customById, [1, 2])
      else if !env.customByTable.isEmpty then (env.customByTable, [1, 2, 3])
      else if !env.restDescribe.isEmpty then (env.restDescribe, [1, 2, 3, 4])
      else ([], [1, 2, 3, 4])
    | none =>
      if !env.customByTable.isEmpty then (env.customByTable, [1, 3])
      else if !env.restDescribe.isEmpty then (env.restDescribe, [1, 3, 4])
      else ([], [1, 3, 4])

/-- The response of strategy number `i` in a given environment. -/
def stratResp (env : StrategyEnv) : Nat → List PicklistValueDetail
  | 1 => env.fieldDef
  | 2 => env.customById
  | 3 => env.customByTable
  | 4 => env.restDescribe
  | _ => []

/-- A single-quote character, used when assembling SOQL text. -/
def squote : String := String.singleton (Char.ofNat 39)

/-- The SOQL text built by `_query_custom_field_tooling` (strategy 2),
including its developer-name computation
`field_name[:-3] if field_name.endswith('__c') else field_name`. -/
def queryCustomFieldToolingSoql (entity_def_id field_name : String) : String :=
  let dev_name :=
    if pyEndsWith field_name "__c" then pyDropRight3 field_name else field_name
  "SELECT Metadata FROM CustomField WHERE TableEnumOrId = " ++ squote ++
    entity_def_id ++ squote ++ " AND DeveloperName = " ++ squote ++ dev_name ++ squote

/-- The SOQL text built by `_query_custom_field_tooling_table_enum`
(strategy 3), which scopes by the object name instead of the entity id. -/
def queryCustomFieldToolingTableEnumSoql (object_name field_name : String) : String :=
  let dev_name :=
    if pyEndsWith field_name "__c" then pyDropRight3 field_name else field_name
  "SELECT Metadata FROM CustomField WHERE TableEnumOrId = " ++ squote ++
    object_name ++ squote ++ " AND DeveloperName = " ++ squote ++ dev_name ++ squote

/-- A field descriptor as seen by `_get_picklist_fields`, together with the
strategy responses the mock session would serve for this field. -/
structure FieldDesc where
  name : String
  label : String
  ftype : String := "picklist"
  strat : StrategyEnv := {}
deriving DecidableEq, Repr

/-- `_get_picklist_fields`: keep the fields whose type is `picklist` or
`multipicklist`, in schema order (the Python dict keyed by API name preserves
insertion order; field names are assumed distinct, as in a real schema). -/
def getPicklistFields (fields : List FieldDesc) : List FieldDesc :=
  fields.filter (fun f => f.ftype == "picklist" || f.ftype == "multipicklist")

/-- Mirrors the `ProcessingResult` accumulator class. -/
structure ProcessingResult where
  values_processed : Nat := 0
  inactive_values : Nat := 0
  rows : List (List String) := []
  picklist_fields_count : Nat := 0
  object_exists : Bool := true
deriving DecidableEq, Repr

/-- Everything `_process_object` observes about one object through the
session: the outcome of the existence-check `describe` call (`some msg` when
it raised with message `msg`), the field descriptors the schema describe
returns, and the resolved entity definition id. -/
structure ObjEnv where
  describeErr : Option String := none
  fieldDescs : List FieldDesc := []
  entityDefId : Option String := none
deriving DecidableEq, Repr

/-- One output row as built in `_process_object`:
`[obj_name, field_info.label, field_api, value.label, value.value, status]`
with `status = 'Active' if is_active else 'Inactive'`. -/
def buildRow (obj_name field_label field_api : String)
    (v : PicklistValueDetail) : List String :=
  [obj_name, field_label, field_api, v.label, v.value,
    if v.is_active then "Active" else "Inactive"]

/-- The inner value loop body of `_process_object`: count an inactive value,
append the row, count the value. -/
def addValue (obj_name field_label field_api : String)
    (r : ProcessingResult) (v : PicklistValueDetail) : ProcessingResult :=
  let r1 := if v.is_active then r
            else { r with inactive_values := r.inactive_values + 1 }
  { r1 with
      rows := r1.rows ++ [buildRow obj_name field_label field_api v]
      values_processed := r1.values_processed + 1 }

/-- The field loop body of `_process_object`: run the fallback chain; fields
with no values are skipped (`continue`). -/
def addField (obj_name : String) (entity_def_id : Option String)
    (r : ProcessingResult) (f : FieldDesc) : ProcessingResult :=
  let values := queryPicklistValuesWithFallback f.strat entity_def_id
  if values.isEmpty then r
  else values.foldl (addValue obj_name f.label f.name) r

/-- `_process_object` (identical control flow in `Version_2`, `GUI_2` with no
pending cancellation, and `GUI_4`): existence check first — an error message
containing `NOT_FOUND` or `INVALID_TYPE` is the terminal not-found state,
any other error re-raises (`Except.error`); then field discovery, entity id
resolution, and the per-field loop. -/
def processObject (obj_name : String) (env : ObjEnv) :
    Except String ProcessingResult :=
  match env.describeErr with
  | some msg =>
    if pyInStr "NOT_FOUND" msg || pyInStr "INVALID_TYPE" msg then
      .ok { object_exists := false }
    else
      .error msg
  | none =>
    let picklistFields := getPicklistFields env.fieldDescs
    let base : ProcessingResult := { picklist_fields_count := picklistFields.length }
    if picklistFields.isEmpty then .ok base
    else .ok (picklistFields.foldl (addField obj_name env.entityDefId) base)

/-- Mirrors the `stats` dictionary of `export_picklists`.  The `cancelled`
key exists only in `GUI_2`'s dictionary; the `Version_2`/`GUI_4` runs keep
it at its initial `false`. -/
structure Stats where
  total_objects : Nat := 0
  successful_objects : Nat := 0
  failed_objects : Nat := 0
  objects_not_found : Nat := 0
  objects_with_zero_picklists : Nat := 0
  objects_with_picklists : Nat := 0
  total_picklist_fields : Nat := 0
  total_values : Nat := 0
  total_active_values : Nat := 0
  total_inactive_values : Nat := 0
  failed_object_details : List (String × String) := []
  objects_without_picklists : List String := []
  objects_not_found_list : List String := []
  cancelled : Bool := false
deriving DecidableEq, Repr

/-- The fixed header row of the output table. -/
def headerRow : List String :=
  ["Object", "Field Label", "Field API", "Picklist Value Label",
   "Picklist Value API", "Status"]

/-- The freshly initialised statistics for `n` objects. -/
def initStats (n : Nat) : Stats := { total_objects := n }

/-- One iteration of the aggregator loop of `export_picklists`: classify the
object's outcome and update rows and statistics (identical branch structure
in all versions).  Note the not-found branch updates `objects_not_found`,
`objects_not_found_list` and `failed_object_details` but not
`failed_objects`. -/
def stepObject (acc : List (List String) × Stats) (o : String × ObjEnv) :
    List (List String) × Stats :=
  match processObject o.1 o.2 with
  | .error msg =>
    (acc.1,
     { acc.2 with
         failed_objects := acc.2.failed_objects + 1
         failed_object_details := acc.2.failed_object_details ++ [(o.1, msg)] })
  | .ok result =>
    if result.object_exists = false then
      (acc.1,
       { acc.2 with
           objects_not_found := acc.2.objects_not_found + 1
           objects_not_found_list := acc.2.objects_not_found_list ++ [o.1]
           failed_object_details :=
             acc.2.failed_object_details ++ [(o.1, "Object does not exist in org")] })
    else if result.picklist_fields_count = 0 then
      (acc.1,
       { acc.2 with
           objects_with_zero_picklists := acc.2.objects_with_zero_picklists + 1
           objects_without_picklists := acc.2.objects_without_picklists ++ [o.1]
           successful_objects := acc.2.successful_objects + 1 })
    else
      (acc.1 ++ result.rows,
       { acc.2 with
           objects_with_picklists := acc.2.objects_with_picklists + 1
           successful_objects := acc.2.successful_objects + 1
           total_picklist_fields :=
             acc.2.total_picklist_fields + result.picklist_fields_count
           total_values := acc.2.total_values + result.values_processed
           total_inactive_values :=
             acc.2.total_inactive_values + result.inactive_values
           total_active_values :=
             acc.2.total_active_values +
               (result.values_processed - result.inactive_values) })

/-- The object loop of `export_picklists`. -/
def exportLoop : List (String × ObjEnv) → List (List String) × Stats →
    List (List String) × Stats
  | [], acc => acc
  | o :: rest, acc => exportLoop rest (stepObject acc o)

/-- `Version_2` (and `GUI_4`) `export_picklists`: header row, the object
loop, and the completed row table handed to the Excel sink. -/
def exportPicklists (objs : List (String × ObjEnv)) :
    List (List String) × Stats :=
  exportLoop objs ([headerRow], initStats objs.length)

/-- The `GUI_2` object loop with cooperative cancellation.  The first
argument is the number of loop iterations that complete before the
cancellation flag becomes visible (cancellation is requested between
objects, as in `cancel_export`); when the flag is seen at the top of the
loop, `stats['cancelled']` is set and the loop breaks. -/
def g2Loop : Nat → List (String × ObjEnv) → List (List String) × Stats →
    List (List String) × Stats
  | _, [], acc => acc
  | 0, _ :: _, acc => (acc.1, { acc.2 with cancelled := true })
  | k + 1, o :: rest, acc => g2Loop k rest (stepObject acc o)

/-- What `GUI_2`'s `export_picklists` produces: `output` is the written
table (`none` models the `return None, stats` path where no Excel file is
created), `allRows` is the internal `all_rows` accumulator, exposed to state
that cancellation does not corrupt it. -/
structure G2Outcome where
  output : Option (List (List String))
  allRows : List (List String)
  stats : Stats
deriving DecidableEq, Repr

/-- `picklistExport_GUI_2.py` `export_picklists`.  `cancelAfter = some k`
means cancellation is requested after `k` objects have been processed
(`none`: never requested).  After the loop, the code checks the flag once
more: only when it was never raised is the Excel file written. -/
def exportPicklistsGUI2 (cancelAfter : Option Nat)
    (objs : List (String × ObjEnv)) : G2Outcome :=
  match cancelAfter with
  | none =>
    let res := exportLoop objs ([headerRow], initStats objs.length)
    { output := some res.1, allRows := res.1, stats := res.2 }
  | some k =>
    let res := g2Loop k objs ([headerRow], initStats objs.length)
    { output := if k ≤ objs.length then none else some res.1
      allRows := res.1
      stats := res.2 }

/-- How the aggregator classifies one object's outcome. -/
inductive ObjClass where
  | notFound
  | zeroPick
  | withPick (r : ProcessingResult)
  | failed (msg : String)
deriving DecidableEq, Repr

/-- The classification the aggregator branch structure applies to the
outcome of `processObject`. -/
def classifyObj (o : String × ObjEnv) : ObjClass :=
  match processObject o.1 o.2 with
  | .error msg => .failed msg
  | .ok r =>
    if r.object_exists = false then .notFound
    else if r.picklist_fields_count = 0 then .zeroPick
    else .withPick r

/-- Whether an object is classified not-found. -/
def isNotFoundClass (o : String × ObjEnv) : Bool :=
  match classifyObj o with | .notFound => true | _ => false

/-- Whether an object is classified as existing with zero picklist fields. -/
def isZeroClass (o : String × ObjEnv) : Bool :=
  match classifyObj o with | .zeroPick => true | _ => false

/-- Whether an object is classified as having picklists. -/
def isWithClass (o : String × ObjEnv) : Bool :=
  match classifyObj o with | .withPick _ => true | _ => false

/-- Whether processing the object raised a propagated exception. -/
def isFailedClass (o : String × ObjEnv) : Bool :=
  match classifyObj o with | .failed _ => true | _ => false

/-- The rows one object contributes to the output table. -/
def objRows (o : String × ObjEnv) : List (List String) :=
  match classifyObj o with
  | .withPick r => r.rows
  | _ => []

/-- The contribution of one object to `total_values`. -/
def objValues (o : String × ObjEnv) : Nat :=
  match classifyObj o with
  | .withPick r => r.values_processed
  | _ => 0

/-- The contribution of one object to `total_inactive_values`. -/
def objInactive (o : String × ObjEnv) : Nat :=
  match classifyObj o with
  | .withPick r => r.inactive_values
  | _ => 0

/-- The contribution of one object to `total_active_values`. -/
def objActive (o : String × ObjEnv) : Nat :=
  match classifyObj o with
  | .withPick r => r.values_processed - r.inactive_values
  | _ => 0

/-- The contribution of one object to `total_picklist_fields`. -/
def objFieldsCount (o : String × ObjEnv) : Nat :=
  match classifyObj o with
  | .withPick r => r.picklist_fields_count
  | _ => 0

/-- The entry one object adds to `failed_object_details`. -/
def objDetail (o : String × ObjEnv) : Option (String × String) :=
  match classifyObj o with
  | .notFound => some (o.1, "Object does not exist in org")
  | .failed msg => some (o.1, msg)
  | _ => none

/-- The entry one object adds to `objects_not_found_list`. -/
def objNotFoundName (o : String × ObjEnv) : Option String :=
  match classifyObj o with
  | .notFound => some o.1
  | _ => none

/-- The entry one object adds to `objects_without_picklists`. -/
def objZeroName (o : String × ObjEnv) : Option String :=
  match classifyObj o with
  | .zeroPick => some o.1
  | _ => none

/-- The rows contributed by a list of objects, in order. -/
def runRows : List (String × ObjEnv) → List (List String)
  | [] => []
  | o :: rest => objRows o ++ runRows rest

/-- Sum of a per-object numeric contribution over a list of objects. -/
def sumOver (f : String × ObjEnv → Nat) : List (String × ObjEnv) → Nat
  | [] => 0
  | o :: rest => f o + sumOver f rest

/-- Collect per-object optional contributions, in order. -/
def collectOver {α : Type} (f : String × ObjEnv → Option α) :
    List (String × ObjEnv) → List α
  | [] => []
  | o :: rest =>
    match f o with
    | some a => a :: collectOver f rest
    | none => collectOver f rest

/-- `0`/`1` contribution of one object to `successful_objects`. -/
def succDelta (o : String × ObjEnv) : Nat :=
  (if isZeroClass o then 1 else 0) + (if isWithClass o then 1 else 0)

/-- `0`/`1` contribution to `failed_objects`. -/
def failDelta (o : String × ObjEnv) : Nat := if isFailedClass o then 1 else 0

/-- `0`/`1` contribution to `objects_not_found`. -/
def nfDelta (o : String × ObjEnv) : Nat := if isNotFoundClass o then 1 else 0

/-- `0`/`1` contribution to `objects_with_zero_picklists`. -/
def zeroDelta (o : String × ObjEnv) : Nat := if isZeroClass o then 1 else 0

/-- `0`/`1` contribution to `objects_with_picklists`. -/
def withDelta (o : String × ObjEnv) : Nat := if isWithClass o then 1 else 0

/-- An object environment whose existence check raises a not-found error
(concrete test input). -/
def ghostEnv : ObjEnv :=
  { describeErr := some "NOT_FOUND: sobject type GhostObject__c is not supported" }

/-- An object environment whose existence check raises an unrelated error
(concrete test input). -/
def timeoutEnv : ObjEnv :=
  { describeErr := some "ConnectionError: read timed out" }

/-- A two-value picklist field on a concrete test object: one active value
and one inactive value, served by strategy 1. -/
def accountEnv : ObjEnv :=
  { fieldDescs :=
      [{ name := "Industry", label := "Industry",
         strat := { fieldDef :=
           [{ label := "Hot", value := "Hot" },
            { label := "Warm", value := "Warm", is_active := false }] } }] }

/-- A five-object list used to exercise cancellation after two objects. -/
def fiveObjs : List (String × ObjEnv) :=
  [("Account", accountEnv), ("Case", {}), ("GhostObject__c", ghostEnv),
   ("Broken", timeoutEnv), ("Lead", {})]

/-- Metadata whose value list holds a well-formed entry, then a malformed
(non-dictionary) item, then another well-formed entry. -/
def malformedMeta : FieldMetadata :=
  { valueSet := some
      { value := some
          [.dict { label := some "A", value := some "A" },
           .other (.str "oops"),
           .dict { label := some "B", value := some "B" }] } }

/-- Metadata with a single entry whose `isActive` key is present but holds
an explicit `null`. -/
def nullActiveMeta : FieldMetadata :=
  { valueSet := some { value := some [.dict { isActive := some PyVal.null }] } }

/-- Metadata on which the `Version_2` and `GUI_4` normalizers agree: the
`valueSetDefinition` list is non-empty and no entry has a null `isActive`. -/
def agreeingMeta : FieldMetadata :=
  { valueSet := some
      { valueSetDefinition := some
          { value := some
              [.dict { label := some "A", valueName := some "A",
                       isActive := some (PyVal.bool true) },
               .dict { label := some "B", valueName := some "B" }] }
        value := some [.dict { label := some "C" }] } }

/-- The well-formed dictionary entries preceding the first malformed item
of a raw value list. -/
def prefixEntries : List RawItem → List RawEntry
  | [] => []
  | .dict e :: rest => e :: prefixEntries rest
  | .other _ :: _ => []

/-- True unless the item is a dictionary entry whose `isActive` key is
present with an explicit `null` (the one value the two normalizer variants
disagree on). -/
def itemNotNullActive : RawItem → Bool
  | .dict e => e.isActive != some PyVal.null
  | .other _ => true

/-- When the `valueSetDefinition` key is present but its value list is
empty, the `value` key's list must be empty too (the configuration on which
the `Version_2` and `GUI_4` key selections diverge). -/
def vsdNonemptyCond (m : FieldMetadata) : Bool :=
  match m.valueSet with
  | none => true
  | some vs =>
    match vs.valueSetDefinition with
    | none => true
    | some vsd => !(vsd.value.getD []).isEmpty || (vs.value.getD []).isEmpty

/-- No entry reachable from either key selection carries an explicit null
`isActive`. -/
def noNullActiveCond (m : FieldMetadata) : Bool :=
  match m.valueSet with
  | none => true
  | some vs =>
    (((vs.valueSetDefinition.getD {}).value).getD [] ++
      vs.value.getD []).all itemNotNullActive

lemma stepObject_eq (acc : List (List String) × Stats) (o : String × ObjEnv) :
    stepObject acc o =
      (acc.1 ++ objRows o,
       { acc.2 with
           successful_objects := acc.2.successful_objects + succDelta o
           failed_objects := acc.2.failed_objects + failDelta o
           objects_not_found := acc.2.objects_not_found + nfDelta o
           objects_with_zero_picklists :=
             acc.2.objects_with_zero_picklists + zeroDelta o
           objects_with_picklists := acc.2.objects_with_picklists + withDelta o
           total_picklist_fields := acc.2.total_picklist_fields + objFieldsCount o
           total_values := acc.2.total_values + objValues o
           total_active_values := acc.2.total_active_values + objActive o
           total_inactive_values := acc.2.total_inactive_values + objInactive o
           failed_object_details :=
             acc.2.failed_object_details ++ (objDetail o).toList
           objects_without_picklists :=
             acc.2.objects_without_picklists ++ (objZeroName o).toList
           objects_not_found_list :=
             acc.2.objects_not_found_list ++ (objNotFoundName o).toList }) := by
  obtain ⟨rows, st⟩ := acc
  rcases h : processObject o.1 o.2 with msg | r
  · cases st
    simp [stepObject, classifyObj, objRows, objValues, objInactive, objActive,
      objFieldsCount, objDetail, objNotFoundName, objZeroName, succDelta,
      failDelta, nfDelta, zeroDelta, withDelta, isNotFoundClass, isZeroClass,
      isWithClass, isFailedClass, h]
  · by_cases hex : r.object_exists = false <;>
      by_cases hz : r.picklist_fields_count = 0 <;>
    · cases st
      simp [stepObject, classifyObj, objRows, objValues, objInactive, objActive,
        objFieldsCount, objDetail, objNotFoundName, objZeroName, succDelta,
        failDelta, nfDelta, zeroDelta, withDelta, isNotFoundClass, isZeroClass,
        isWithClass, isFailedClass, h, hex, hz]

lemma collectOver_cons {α : Type} (f : String × ObjEnv → Option α)
    (o : String × ObjEnv) (rest : List (String × ObjEnv)) :
    collectOver f (o :: rest) = (f o).toList ++ collectOver f rest := by
  cases h : f o <;> simp [collectOver, h]

lemma exportLoop_spec (objs : List (String × ObjEnv))
    (rows0 : List (List String)) (st : Stats) :
    exportLoop objs (rows0, st) =
      (rows0 ++ runRows objs,
       { st with
           successful_objects := st.successful_objects + sumOver succDelta objs
           failed_objects := st.failed_objects + sumOver failDelta objs
           objects_not_found := st.objects_not_found + sumOver nfDelta objs
           objects_with_zero_picklists :=
             st.objects_with_zero_picklists + sumOver zeroDelta objs
           objects_with_picklists :=
             st.objects_with_picklists + sumOver withDelta objs
           total_picklist_fields :=
             st.total_picklist_fields + sumOver objFieldsCount objs
           total_values := st.total_values + sumOver objValues objs
           total_active_values := st.total_active_values + sumOver objActive objs
           total_inactive_values :=
             st.total_inactive_values + sumOver objInactive objs
           failed_object_details :=
             st.failed_object_details ++ collectOver objDetail objs
           objects_without_picklists :=
             st.objects_without_picklists ++ collectOver objZeroName objs
           objects_not_found_list :=
             st.objects_not_found_list ++ collectOver objNotFoundName objs }) := by
  induction objs generalizing rows0 st with
  | nil =>
    cases st
    simp [exportLoop, runRows, sumOver, collectOver]
  | cons o rest ih =>
    rw [exportLoop, stepObject_eq, ih]
    cases st
    simp [runRows, sumOver, collectOver_cons, List.append_assoc, Nat.add_assoc]

/-- The well-formedness invariant maintained by the row-building loops. -/
def resultWf (r : ProcessingResult) : Prop :=
  r.rows.length = r.values_processed ∧ r.inactive_values ≤ r.values_processed

lemma addValue_wf (obj_name field_label field_api : String)
    (r : ProcessingResult) (v : PicklistValueDetail) (h : resultWf r) :
    resultWf (addValue obj_name field_label field_api r v) := by
  obtain ⟨h1, h2⟩ := h
  by_cases ha : v.is_active <;>
    simp [resultWf, addValue, ha, h1] <;> omega

lemma foldl_addValue_wf (obj_name field_label field_api : String)
    (vs : List PicklistValueDetail) (r : ProcessingResult) (h : resultWf r) :
    resultWf (vs.foldl (addValue obj_name field_label field_api) r) := by
  induction vs generalizing r with
  | nil => exact h
  | cons v rest ih =>
    exact ih _ (addValue_wf obj_name field_label field_api r v h)

lemma addField_wf (obj_name : String) (entity_def_id : Option String)
    (r : ProcessingResult) (f : FieldDesc) (h : resultWf r) :
    resultWf (addField obj_name entity_def_id r f) := by
  unfold addField
  by_cases he : (queryPicklistValuesWithFallback f.strat entity_def_id).isEmpty <;>
    simp [he]
  · exact h
  · exact foldl_addValue_wf obj_name f.label f.name _ r h

lemma foldl_addField_wf (obj_name : String) (entity_def_id : Option String)
    (fs : List FieldDesc) (r : ProcessingResult) (h : resultWf r) :
    resultWf (fs.foldl (addField obj_name entity_def_id) r) := by
  induction fs generalizing r with
  | nil => exact h
  | cons f rest ih => exact ih _ (addField_wf obj_name entity_def_id r f h)

/-- Every result `_process_object` returns has as many rows as values
processed, and no more inactive values than values processed. -/
lemma processObject_wf (obj_name : String) (env : ObjEnv)
    (r : ProcessingResult) (h : processObject obj_name env = .ok r) :
    resultWf r := by
  unfold processObject at h
  rcases hd : env.describeErr with _ | msg
  · rw [hd] at h
    simp only at h
    by_cases he : (getPicklistFields env.fieldDescs).isEmpty <;> simp [he] at h
    · subst h
      exact ⟨rfl, le_refl 0⟩
    · subst h
      exact foldl_addField_wf obj_name env.entityDefId _ _ ⟨rfl, le_refl 0⟩
  · rw [hd] at h
    by_cases hc : (pyInStr "NOT_FOUND" msg || pyInStr "INVALID_TYPE" msg) = true <;>
      simp [hc] at h
    subst h
    exact ⟨rfl, le_refl 0⟩

/-- Per-object contributions respect the value-count identities. -/
lemma objActive_add_objInactive (o : String × ObjEnv) :
    objActive o + objInactive o = objValues o := by
  unfold objActive objInactive objValues classifyObj
  rcases h : processObject o.1 o.2 with msg | r
  · simp
  · obtain ⟨hlen, hle⟩ := processObject_wf o.1 o.2 r h
    by_cases hex : r.object_exists = false <;>
      by_cases hz : r.picklist_fields_count = 0 <;>
        simp [hex, hz]
    all_goals omega

/-- Each object's row contribution has length `objValues`. -/
lemma objRows_length (o : String × ObjEnv) :
    (objRows o).length = objValues o := by
  unfold objRows objValues classifyObj
  rcases h : processObject o.1 o.2 with msg | r
  · simp
  · have hwf := processObject_wf o.1 o.2 r h
    by_cases hex : r.object_exists = false <;>
      by_cases hz : r.picklist_fields_count = 0 <;>
        simp [hex, hz]
    all_goals exact hwf.1

lemma sumOver_active_add_inactive (objs : List (String × ObjEnv)) :
    sumOver objActive objs + sumOver objInactive objs =
      sumOver objValues objs := by
  induction objs with
  | nil => rfl
  | cons o rest ih =>
    simp only [sumOver]
    have := objActive_add_objInactive o
    omega

lemma runRows_length (objs : List (String × ObjEnv)) :
    (runRows objs).length = sumOver objValues objs := by
  induction objs with
  | nil => rfl
  | cons o rest ih =>
    simp [runRows, sumOver, ih, objRows_length o]

/-- Exactly one classification applies to each object. -/
lemma class_partition (o : String × ObjEnv) :
    nfDelta o + zeroDelta o + withDelta o + failDelta o = 1 := by
  unfold nfDelta zeroDelta withDelta failDelta isNotFoundClass isZeroClass
    isWithClass isFailedClass
  rcases h : classifyObj o with _ | _ | r | msg <;> simp [h]

lemma sumOver_partition (objs : List (String × ObjEnv)) :
    sumOver nfDelta objs + sumOver zeroDelta objs + sumOver withDelta objs +
      sumOver failDelta objs = objs.length := by
  induction objs with
  | nil => rfl
  | cons o rest ih =>
    simp only [sumOver, List.length_cons]
    have := class_partition o
    omega

lemma sumOver_append (f : String × ObjEnv → Nat)
    (l1 l2 : List (String × ObjEnv)) :
    sumOver f (l1 ++ l2) = sumOver f l1 + sumOver f l2 := by
  induction l1 with
  | nil => simp [sumOver]
  | cons o rest ih => simp [sumOver, ih]; omega

lemma runRows_append (l1 l2 : List (String × ObjEnv)) :
    runRows (l1 ++ l2) = runRows l1 ++ runRows l2 := by
  induction l1 with
  | nil => simp [runRows]
  | cons o rest ih => simp [runRows, ih]

lemma collectOver_append {α : Type} (f : String × ObjEnv → Option α)
    (l1 l2 : List (String × ObjEnv)) :
    collectOver f (l1 ++ l2) = collectOver f l1 ++ collectOver f l2 := by
  induction l1 with
  | nil => simp [collectOver]
  | cons o rest ih =>
    rw [List.cons_append, collectOver_cons, collectOver_cons, ih,
      List.append_assoc]

lemma mem_collectOver {α : Type} (f : String × ObjEnv → Option α)
    (objs : List (String × ObjEnv)) (o : String × ObjEnv) (a : α)
    (ho : o ∈ objs) (h : f o = some a) : a ∈ collectOver f objs := by
  induction objs with
  | nil => cases ho
  | cons x rest ih =>
    rw [collectOver_cons]
    rcases List.mem_cons.mp ho with rfl | hm
    · rw [h]; simp
    · exact List.mem_append_right _ (ih hm)

lemma sumOver_if_eq_countP (p : String × ObjEnv → Bool)
    (objs : List (String × ObjEnv)) :
    sumOver (fun o => if p o then 1 else 0) objs = objs.countP p := by
  induction objs with
  | nil => rfl
  | cons o rest ih => simp [sumOver, ih, List.countP_cons]; omega

lemma sumOver_nfDelta (objs : List (String × ObjEnv)) :
    sumOver nfDelta objs = objs.countP isNotFoundClass :=
  sumOver_if_eq_countP isNotFoundClass objs

lemma sumOver_failDelta (objs : List (String × ObjEnv)) :
    sumOver failDelta objs = objs.countP isFailedClass :=
  sumOver_if_eq_countP isFailedClass objs

lemma sumOver_zeroDelta (objs : List (String × ObjEnv)) :
    sumOver zeroDelta objs = objs.countP isZeroClass :=
  sumOver_if_eq_countP isZeroClass objs

lemma sumOver_withDelta (objs : List (String × ObjEnv)) :
    sumOver withDelta objs = objs.countP isWithClass :=
  sumOver_if_eq_countP isWithClass objs

lemma sumOver_succDelta (objs : List (String × ObjEnv)) :
    sumOver succDelta objs =
      objs.countP isZeroClass + objs.countP isWithClass := by
  induction objs with
  | nil => rfl
  | cons o rest ih => simp [sumOver, succDelta, ih, List.countP_cons]; omega

/-- Closed form for a whole `Version_2`-style export run. -/
lemma exportPicklists_spec (objs : List (String × ObjEnv)) :
    exportPicklists objs =
      (headerRow :: runRows objs,
       { total_objects := objs.length
         successful_objects := sumOver succDelta objs
         failed_objects := sumOver failDelta objs
         objects_not_found := sumOver nfDelta objs
         objects_with_zero_picklists := sumOver zeroDelta objs
         objects_with_picklists := sumOver withDelta objs
         total_picklist_fields := sumOver objFieldsCount objs
         total_values := sumOver objValues objs
         total_active_values := sumOver objActive objs
         total_inactive_values := sumOver objInactive objs
         failed_object_details := collectOver objDetail objs
         objects_without_picklists := collectOver objZeroName objs
         objects_not_found_list := collectOver objNotFoundName objs
         cancelled := false }) := by
  unfold exportPicklists
  rw [exportLoop_spec]
  simp [initStats]

/-- C2 (counterexample): a run over one object whose describe raises
`NOT_FOUND` increments `objects_not_found` and records the reason, but
leaves `failed_objects` at 0, so `successful_objects + failed_objects`
is 0 while `total_objects` is 1 — contradicting the claimed accounting. -/
theorem c2_notfound_failed_counterexample :
    (exportPicklists [("GhostObject__c", ghostEnv)]).2.objects_not_found = 1 ∧
    ("GhostObject__c", "Object does not exist in org") ∈
      (exportPicklists [("GhostObject__c", ghostEnv)]).2.failed_object_details ∧
    (exportPicklists [("GhostObject__c", ghostEnv)]).2.failed_objects = 0 ∧
    (exportPicklists [("GhostObject__c", ghostEnv)]).2.successful_objects +
        (exportPicklists [("GhostObject__c", ghostEnv)]).2.failed_objects ≠
      (exportPicklists [("GhostObject__c", ghostEnv)]).2.total_objects := by
  decide

/-- C2 (amended): for every not-found object the aggregator increments
`objects_not_found` and records the reason "Object does not exist in org"
in `failed_object_details`, but does not increment `failed_objects`
(which counts only objects whose processing raised); consequently
`successful_objects + failed_objects + objects_not_found = total_objects`
for every run. -/
theorem c2_notfound_failed_accounting (objs : List (String × ObjEnv)) :
    (exportPicklists objs).2.total_objects = objs.length ∧
    (exportPicklists objs).2.objects_not_found = objs.countP isNotFoundClass ∧
    (exportPicklists objs).2.failed_objects = objs.countP isFailedClass ∧
    (exportPicklists objs).2.successful_objects +
        (exportPicklists objs).2.failed_objects +
        (exportPicklists objs).2.objects_not_found =
      (exportPicklists objs).2.total_objects ∧
    (∀ name env, (name, env) ∈ objs → isNotFoundClass (name, env) = true →
      (name, "Object does not exist in org") ∈
        (exportPicklists objs).2.failed_object_details) := by
  rw [exportPicklists_spec]
  refine ⟨rfl, sumOver_nfDelta objs, sumOver_failDelta objs, ?_, ?_⟩
  · have h1 := sumOver_partition objs
    have h2 := sumOver_succDelta objs
    have h3 := sumOver_zeroDelta objs
    have h4 := sumOver_withDelta objs
    simp only
    omega
  · intro name env hmem hnf
    have hcl : classifyObj (name, env) = .notFound := by
      unfold isNotFoundClass at hnf
      rcases h : classifyObj (name, env) with _ | _ | r | msg <;>
        rw [h] at hnf <;> first | rfl | exact absurd hnf (by simp)
    exact mem_collectOver objDetail objs (name, env)
      (name, "Object does not exist in org") hmem (by simp [objDetail, hcl])

/-- C2 (witness): the amended accounting at a concrete five-object run
containing a not-found object. -/
theorem c2_notfound_failed_accounting_witness :
    (exportPicklists fiveObjs).2.successful_objects +
        (exportPicklists fiveObjs).2.failed_objects +
        (exportPicklists fiveObjs).2.objects_not_found =
      (exportPicklists fiveObjs).2.total_objects ∧
    ("GhostObject__c", "Object does not exist in org") ∈
      (exportPicklists fiveObjs).2.failed_object_details :=
  ⟨(c2_notfound_failed_accounting fiveObjs).2.2.2.1,
   (c2_notfound_failed_accounting fiveObjs).2.2.2.2 "GhostObject__c" ghostEnv
     (by decide) (by decide)⟩

/-- C3: in every run, active plus inactive values equal `total_values`,
`total_values` is the sum of `values_processed` over the objects classified
as having picklists, and that count is exactly the number of data rows of
the output table (its length minus the header row). -/
theorem c3_value_count_invariants (objs : List (String × ObjEnv)) :
    (exportPicklists objs).2.total_active_values +
        (exportPicklists objs).2.total_inactive_values =
      (exportPicklists objs).2.total_values ∧
    (exportPicklists objs).2.total_values = sumOver objValues objs ∧
    (exportPicklists objs).1.length =
      (exportPicklists objs).2.total_values + 1 := by
  rw [exportPicklists_spec]
  refine ⟨sumOver_active_add_inactive objs, rfl, ?_⟩
  simp [runRows_length]

/-- C9: an object that exists (describe succeeds) and has zero discovered
picklist fields yields a result with `picklist_fields_count = 0` and no
rows; the aggregator classifies it zero-picklist, counts it successful,
and adds no rows to the output table. -/
theorem c9_zero_picklist_success (name : String) (env : ObjEnv)
    (h1 : env.describeErr = none)
    (h2 : getPicklistFields env.fieldDescs = []) :
    processObject name env =
      .ok { values_processed := 0, inactive_values := 0, rows := [],
            picklist_fields_count := 0, object_exists := true } ∧
    classifyObj (name, env) = .zeroPick ∧
    ∀ pre suf,
      (exportPicklists (pre ++ (name, env) :: suf)).2.objects_with_zero_picklists =
        (exportPicklists (pre ++ suf)).2.objects_with_zero_picklists + 1 ∧
      (exportPicklists (pre ++ (name, env) :: suf)).2.successful_objects =
        (exportPicklists (pre ++ suf)).2.successful_objects + 1 ∧
      (exportPicklists (pre ++ (name, env) :: suf)).1 =
        (exportPicklists (pre ++ suf)).1 := by
  have hp : processObject name env =
      .ok { values_processed := 0, inactive_values := 0, rows := [],
            picklist_fields_count := 0, object_exists := true } := by
    unfold processObject
    rw [h1]
    simp [h2]
  have hcl : classifyObj (name, env) = .zeroPick := by
    simp [classifyObj, hp]
  refine ⟨hp, hcl, ?_⟩
  intro pre suf
  have hzd : zeroDelta (name, env) = 1 := by simp [zeroDelta, isZeroClass, hcl]
  have hsd : succDelta (name, env) = 1 := by
    simp [succDelta, isZeroClass, isWithClass, hcl]
  have hor : objRows (name, env) = [] := by simp [objRows, hcl]
  refine ⟨?_, ?_, ?_⟩ <;> rw [exportPicklists_spec, exportPicklists_spec]
  · show sumOver zeroDelta (pre ++ (name, env) :: suf) =
      sumOver zeroDelta (pre ++ suf) + 1
    rw [sumOver_append, sumOver_append]
    simp [sumOver, hzd]
    omega
  · show sumOver succDelta (pre ++ (name, env) :: suf) =
      sumOver succDelta (pre ++ suf) + 1
    rw [sumOver_append, sumOver_append]
    simp [sumOver, hsd]
    omega
  · show headerRow :: runRows (pre ++ (name, env) :: suf) =
      headerRow :: runRows (pre ++ suf)
    rw [runRows_append, runRows_append]
    simp [runRows, hor]

/-- C9 (witness): the zero-picklist accounting at a concrete run. -/
theorem c9_zero_picklist_success_witness :
    processObject "Case" {} =
      .ok { values_processed := 0, inactive_values := 0, rows := [],
            picklist_fields_count := 0, object_exists := true } ∧
    (exportPicklists
        [("Account", accountEnv), ("Case", {}), ("GhostObject__c", ghostEnv)]).2.objects_with_zero_picklists =
      (exportPicklists
        [("Account", accountEnv), ("GhostObject__c", ghostEnv)]).2.objects_with_zero_picklists + 1 :=
  ⟨(c9_zero_picklist_success "Case" {} rfl rfl).1,
   ((c9_zero_picklist_success "Case" {} rfl rfl).2.2
      [("Account", accountEnv)] [("GhostObject__c", ghostEnv)]).1⟩

/-- C7: a describe error whose message contains `NOT_FOUND` or
`INVALID_TYPE` makes `_process_object` return a terminal not-found result
(no further work, nothing propagated); any other describe error propagates
as an exception, which the aggregator catches: it increments
`failed_objects`, records the object name with the message, adds no rows,
and continues with the remaining objects unchanged. -/
theorem c7_error_propagation :
    (∀ name env msg, env.describeErr = some msg →
       (pyInStr "NOT_FOUND" msg || pyInStr "INVALID_TYPE" msg) = true →
       processObject name env =
         .ok { values_processed := 0, inactive_values := 0, rows := [],
               picklist_fields_count := 0, object_exists := false }) ∧
    (∀ name env msg, env.describeErr = some msg →
       (pyInStr "NOT_FOUND" msg || pyInStr "INVALID_TYPE" msg) = false →
       processObject name env = .error msg) ∧
    (∀ name env msg pre suf, processObject name env = .error msg →
       (exportPicklists (pre ++ (name, env) :: suf)).2.failed_objects =
         (exportPicklists (pre ++ suf)).2.failed_objects + 1 ∧
       (name, msg) ∈
         (exportPicklists (pre ++ (name, env) :: suf)).2.failed_object_details ∧
       (exportPicklists (pre ++ (name, env) :: suf)).2.successful_objects =
         (exportPicklists (pre ++ suf)).2.successful_objects ∧
       (exportPicklists (pre ++ (name, env) :: suf)).1 =
         (exportPicklists (pre ++ suf)).1) := by
  refine ⟨?_, ?_, ?_⟩
  · intro name env msg hd hc
    unfold processObject
    rw [hd]
    simp [hc]
  · intro name env msg hd hc
    unfold processObject
    rw [hd]
    simp [hc]
  · intro name env msg pre suf herr
    have hcl : classifyObj (name, env) = .failed msg := by
      simp [classifyObj, herr]
    have hfd : failDelta (name, env) = 1 := by
      simp [failDelta, isFailedClass, hcl]
    have hsd : succDelta (name, env) = 0 := by
      simp [succDelta, isZeroClass, isWithClass, hcl]
    have hor : objRows (name, env) = [] := by simp [objRows, hcl]
    have hdet : objDetail (name, env) = some (name, msg) := by
      simp [objDetail, hcl]
    refine ⟨?_, ?_, ?_, ?_⟩
    · rw [exportPicklists_spec, exportPicklists_spec]
      show sumOver failDelta (pre ++ (name, env) :: suf) =
        sumOver failDelta (pre ++ suf) + 1
      rw [sumOver_append, sumOver_append]
      simp [sumOver, hfd]
      omega
    · rw [exportPicklists_spec]
      exact mem_collectOver objDetail (pre ++ (name, env) :: suf) (name, env)
        (name, msg)
        (List.mem_append.mpr (Or.inr (List.mem_cons_self _ _))) hdet
    · rw [exportPicklists_spec, exportPicklists_spec]
      show sumOver succDelta (pre ++ (name, env) :: suf) =
        sumOver succDelta (pre ++ suf)
      rw [sumOver_append, sumOver_append]
      simp [sumOver, hsd]
    · rw [exportPicklists_spec, exportPicklists_spec]
      show headerRow :: runRows (pre ++ (name, env) :: suf) =
        headerRow :: runRows (pre ++ suf)
      rw [runRows_append, runRows_append]
      simp [runRows, hor]

/-- C7 (witness): the error taxonomy at concrete describe failures. -/
theorem c7_error_propagation_witness :
    processObject "GhostObject__c" ghostEnv =
      .ok { values_processed := 0, inactive_values := 0, rows := [],
            picklist_fields_count := 0, object_exists := false } ∧
    processObject "Broken" timeoutEnv =
      .error "ConnectionError: read timed out" ∧
    (exportPicklists
        [("Account", accountEnv), ("Broken", timeoutEnv), ("Lead", {})]).2.failed_objects =
      (exportPicklists [("Account", accountEnv), ("Lead", {})]).2.failed_objects + 1 :=
  ⟨c7_error_propagation.1 "GhostObject__c" ghostEnv
     "NOT_FOUND: sobject type GhostObject__c is not supported" rfl (by decide),
   c7_error_propagation.2.1 "Broken" timeoutEnv
     "ConnectionError: read timed out" rfl (by decide),
   (c7_error_propagation.2.2 "Broken" timeoutEnv
     "ConnectionError: read timed out" [("Account", accountEnv)] [("Lead", {})]
     (c7_error_propagation.2.1 "Broken" timeoutEnv
       "ConnectionError: read timed out" rfl (by decide))).1⟩

/-- C1: for every (object, field) pair the chain tries the strategies in the
fixed order 1 (field definition), 2 (custom field by entity id), 3 (custom
field by table name), 4 (schema describe); strategy 2 is skipped entirely
when no entity id was resolved; every strategy invoked before the last one
returned empty; a non-empty final answer is exactly the response of the last
strategy invoked (no later strategy is invoked); and when all attempted
strategies are empty the whole attempted order was exhausted and the result
is `[]`. -/
theorem c1_fallback_chain (env : StrategyEnv) (eid : Option String) :
    (fallbackWithTrace env eid).1 = queryPicklistValuesWithFallback env eid ∧
    (fallbackWithTrace env eid).2 =
      (if eid.isSome then [1, 2, 3, 4] else [1, 3, 4]).take
        (fallbackWithTrace env eid).2.length ∧
    (∀ i ∈ (fallbackWithTrace env eid).2.dropLast, stratResp env i = []) ∧
    (queryPicklistValuesWithFallback env eid ≠ [] →
      queryPicklistValuesWithFallback env eid =
        stratResp env ((fallbackWithTrace env eid).2.getLastD 0)) ∧
    (queryPicklistValuesWithFallback env eid = [] →
      (fallbackWithTrace env eid).2 =
        (if eid.isSome then [1, 2, 3, 4] else [1, 3, 4]) ∧
      ∀ i ∈ (fallbackWithTrace env eid).2, stratResp env i = []) := by
  obtain ⟨s1, s2, s3, s4⟩ := env
  cases eid <;> cases s1 <;> cases s2 <;> cases s3 <;> cases s4 <;>
    simp [queryPicklistValuesWithFallback, fallbackWithTrace, stratResp]

/-- C1 (witness): the spec's scenario — strategy 1 empty, no entity id so
strategy 2 skipped, strategy 3 non-empty — at a concrete environment. -/
theorem c1_fallback_chain_witness :
    queryPicklistValuesWithFallback
        { customByTable := [{ label := "X", value := "X" }] } none ≠ [] ∧
    queryPicklistValuesWithFallback
        { customByTable := [{ label := "X", value := "X" }] } none =
      stratResp { customByTable := [{ label := "X", value := "X" }] }
        ((fallbackWithTrace
            { customByTable := [{ label := "X", value := "X" }] } none).2.getLastD 0) ∧
    (fallbackWithTrace
        { customByTable := [{ label := "X", value := "X" }] } none).2 = [1, 3] :=
  ⟨by decide,
   (c1_fallback_chain { customByTable := [{ label := "X", value := "X" }] }
      none).2.2.2.1 (by decide),
   by decide⟩

lemma pyEndsWith_suffix (base : String) : pyEndsWith (base ++ "__c") "__c" = true := by
  unfold pyEndsWith
  rw [String.data_append]
  have h3 : ("__c".data).length = 3 := by decide
  simp only [Bool.and_eq_true, decide_eq_true_eq, List.length_append, h3,
    Nat.add_sub_cancel]
  refine ⟨by omega, ?_⟩
  rw [List.drop_left]
  simp

lemma pyDropRight3_suffix (base : String) : pyDropRight3 (base ++ "__c") = base := by
  obtain ⟨l⟩ := base
  unfold pyDropRight3
  rw [String.data_append]
  have h3 : ("__c".data).length = 3 := by decide
  have hlen : ((⟨l⟩ : String).data ++ "__c".data).length - 3 =
      ((⟨l⟩ : String).data).length := by
    simp [List.length_append, h3]
  rw [hlen, List.take_left]

lemma foldl_addValue_rows (obj_name field_label field_api : String)
    (vs : List PicklistValueDetail) (r : ProcessingResult) :
    (vs.foldl (addValue obj_name field_label field_api) r).rows =
      r.rows ++ vs.map (buildRow obj_name field_label field_api) := by
  induction vs generalizing r with
  | nil => simp
  | cons v rest ih =>
    rw [List.foldl_cons, ih]
    by_cases ha : v.is_active <;> simp [addValue, ha]

lemma addField_rows (obj_name : String) (entity_def_id : Option String)
    (r : ProcessingResult) (f : FieldDesc) :
    (addField obj_name entity_def_id r f).rows =
      r.rows ++ (queryPicklistValuesWithFallback f.strat entity_def_id).map
        (buildRow obj_name f.label f.name) := by
  unfold addField
  by_cases he : (queryPicklistValuesWithFallback f.strat entity_def_id).isEmpty
  · rw [List.isEmpty_iff] at he
    simp [he]
  · simp [he, foldl_addValue_rows]

/-- C8: a field API name ending in the custom suffix `__c` has the suffix
stripped before being used as the `DeveloperName` filter of the strategy-2
and strategy-3 SOQL queries; a name without the suffix is used unchanged;
and every output row built for a field carries the original API name
(suffix included) in the "Field API" column (index 2). -/
theorem c8_custom_suffix_handling :
    (∀ eid base, queryCustomFieldToolingSoql eid (base ++ "__c") =
      "SELECT Metadata FROM CustomField WHERE TableEnumOrId = " ++ squote ++
        eid ++ squote ++ " AND DeveloperName = " ++ squote ++ base ++ squote) ∧
    (∀ obj base, queryCustomFieldToolingTableEnumSoql obj (base ++ "__c") =
      "SELECT Metadata FROM CustomField WHERE TableEnumOrId = " ++ squote ++
        obj ++ squote ++ " AND DeveloperName = " ++ squote ++ base ++ squote) ∧
    (∀ eid f, pyEndsWith f "__c" = false →
      queryCustomFieldToolingSoql eid f =
        "SELECT Metadata FROM CustomField WHERE TableEnumOrId = " ++ squote ++
          eid ++ squote ++ " AND DeveloperName = " ++ squote ++ f ++ squote) ∧
    (∀ obj f, pyEndsWith f "__c" = false →
      queryCustomFieldToolingTableEnumSoql obj f =
        "SELECT Metadata FROM CustomField WHERE TableEnumOrId = " ++ squote ++
          obj ++ squote ++ " AND DeveloperName = " ++ squote ++ f ++ squote) ∧
    (∀ obj_name entity_def_id r f,
      (addField obj_name entity_def_id r f).rows =
        r.rows ++ (queryPicklistValuesWithFallback f.strat entity_def_id).map
          (buildRow obj_name f.label f.name)) ∧
    (∀ o l f v, (buildRow o l f v)[2]? = some f) := by
  refine ⟨?_, ?_, ?_, ?_, addField_rows, ?_⟩
  · intro eid base
    unfold queryCustomFieldToolingSoql
    rw [pyEndsWith_suffix base, pyDropRight3_suffix base]
    simp
  · intro obj base
    unfold queryCustomFieldToolingTableEnumSoql
    rw [pyEndsWith_suffix base, pyDropRight3_suffix base]
    simp
  · intro eid f hf
    unfold queryCustomFieldToolingSoql
    rw [hf]
    simp
  · intro obj f hf
    unfold queryCustomFieldToolingTableEnumSoql
    rw [hf]
    simp
  · intro o l f v
    simp [buildRow]

/-- C8 (witness): suffix stripping and row construction at concrete names. -/
theorem c8_custom_suffix_handling_witness :
    queryCustomFieldToolingSoql "000000000000001" ("Status" ++ "__c") =
      "SELECT Metadata FROM CustomField WHERE TableEnumOrId = " ++ squote ++
        "000000000000001" ++ squote ++ " AND DeveloperName = " ++ squote ++
        "Status" ++ squote ∧
    queryCustomFieldToolingSoql "000000000000001" "Industry" =
      "SELECT Metadata FROM CustomField WHERE TableEnumOrId = " ++ squote ++
        "000000000000001" ++ squote ++ " AND DeveloperName = " ++ squote ++
        "Industry" ++ squote ∧
    (buildRow "Account" "Status" "Status__c" { label := "New", value := "New" })[2]? =
      some "Status__c" :=
  ⟨c8_custom_suffix_handling.1 "000000000000001" "Status",
   c8_custom_suffix_handling.2.2.1 "000000000000001" "Industry" (by decide),
   c8_custom_suffix_handling.2.2.2.2.2 "Account" "Status" "Status__c"
     { label := "New", value := "New" }⟩

lemma g2Loop_cancel (k : Nat) (objs : List (String × ObjEnv))
    (acc : List (List String) × Stats) (h : k < objs.length) :
    g2Loop k objs acc =
      ((exportLoop (objs.take k) acc).1,
       { (exportLoop (objs.take k) acc).2 with cancelled := true }) := by
  induction objs generalizing k acc with
  | nil => simp at h
  | cons o rest ih =>
    cases k with
    | zero => simp [g2Loop, exportLoop]
    | succ k =>
      have hk : k < rest.length := by simpa using h
      simp only [g2Loop, List.take_succ_cons, exportLoop]
      exact ih k (stepObject acc o) hk

/-- C4: if cancellation is requested after `k` of `n` objects (with
`k < n`), the `GUI_2` export returns statistics equal to those of an
uncancelled run over exactly the first `k` objects, with the cancelled flag
set and the total count still `n`; the internal row accumulator equals that
of the first `k` objects (objects `k+1..n` contribute nothing); no Excel
output is produced; and the run terminates normally (this total function
returns, modelling that no exception reaches the caller). -/
theorem c4_cooperative_cancellation (objs : List (String × ObjEnv)) (k : Nat)
    (h : k < objs.length) :
    (exportPicklistsGUI2 (some k) objs).stats =
      { (exportPicklistsGUI2 none (objs.take k)).stats with
          cancelled := true, total_objects := objs.length } ∧
    (exportPicklistsGUI2 (some k) objs).allRows =
      (exportPicklistsGUI2 none (objs.take k)).allRows ∧
    (exportPicklistsGUI2 (some k) objs).output = none := by
  have hg := g2Loop_cancel k objs ([headerRow], initStats objs.length) h
  refine ⟨?_, ?_, ?_⟩
  · calc (exportPicklistsGUI2 (some k) objs).stats
        = (g2Loop k objs ([headerRow], initStats objs.length)).2 := rfl
      _ = { (exportLoop (objs.take k) ([headerRow], initStats objs.length)).2
              with cancelled := true } := by rw [hg]
      _ = { (exportPicklistsGUI2 none (objs.take k)).stats with
              cancelled := true, total_objects := objs.length } := by
          rw [exportLoop_spec]
          have hn : (exportPicklistsGUI2 none (objs.take k)).stats =
              (exportLoop (objs.take k)
                ([headerRow], initStats (objs.take k).length)).2 := rfl
          rw [hn, exportLoop_spec]
          rfl
  · calc (exportPicklistsGUI2 (some k) objs).allRows
        = (g2Loop k objs ([headerRow], initStats objs.length)).1 := rfl
      _ = (exportLoop (objs.take k) ([headerRow], initStats objs.length)).1 := by
          rw [hg]
      _ = (exportPicklistsGUI2 none (objs.take k)).allRows := by
          rw [exportLoop_spec]
          have hn : (exportPicklistsGUI2 none (objs.take k)).allRows =
              (exportLoop (objs.take k)
                ([headerRow], initStats (objs.take k).length)).1 := rfl
          rw [hn, exportLoop_spec]
  · show (if k ≤ objs.length then none else some _) = none
    simp [Nat.le_of_lt h]

/-- C4 (witness): cancellation after 2 of 5 concrete objects. -/
theorem c4_cooperative_cancellation_witness :
    2 < fiveObjs.length ∧
    (exportPicklistsGUI2 (some 2) fiveObjs).stats =
      { (exportPicklistsGUI2 none (fiveObjs.take 2)).stats with
          cancelled := true, total_objects := fiveObjs.length } ∧
    (exportPicklistsGUI2 (some 2) fiveObjs).output = none :=
  ⟨by decide,
   (c4_cooperative_cancellation fiveObjs 2 (by decide)).1,
   (c4_cooperative_cancellation fiveObjs 2 (by decide)).2.2⟩

/-- C5 (counterexample): an `isActive`/`active` flag that is present but
holds an explicit `null` is not coerced to boolean (which would give
`false`): both `Version_2` parsers classify it active. -/
theorem c5_present_null_counterexample :
    (parseEntryV2 { isActive := some PyVal.null }).is_active = true ∧
    (parseRestValueV2 { active := some PyVal.null }).is_active = true ∧
    pyTruthy PyVal.null = false := by
  decide

/-- C5 (amended): an entry whose `isActive` (value-set normalizer) or
`active` (schema-describe strategy) flag is entirely absent yields
`is_active = true`; a flag present with a non-null value is coerced to
boolean; a flag present with an explicit `null` is treated like an absent
one (`true`, not `bool(None) = false`); and a value with `is_active = true`
produces a row whose Status column is "Active". -/
theorem c5_absent_flag_defaults_active :
    (∀ e : RawEntry, e.isActive = none → (parseEntryV2 e).is_active = true) ∧
    (∀ e : RawEntry, e.isActive = some PyVal.null →
      (parseEntryV2 e).is_active = true) ∧
    (∀ (e : RawEntry) (w : PyVal), e.isActive = some w → w ≠ PyVal.null →
      (parseEntryV2 e).is_active = pyTruthy w) ∧
    (∀ pv : RestPicklistValue, pv.active = none →
      (parseRestValueV2 pv).is_active = true) ∧
    (∀ pv : RestPicklistValue, pv.active = some PyVal.null →
      (parseRestValueV2 pv).is_active = true) ∧
    (∀ (pv : RestPicklistValue) (w : PyVal), pv.active = some w →
      w ≠ PyVal.null → (parseRestValueV2 pv).is_active = pyTruthy w) ∧
    (∀ (o l f : String) (v : PicklistValueDetail), v.is_active = true →
      buildRow o l f v = [o, l, f, v.label, v.value, "Active"]) := by
  refine ⟨?_, ?_, ?_, ?_, ?_, ?_, ?_⟩
  · intro e h
    simp [parseEntryV2, h]
  · intro e h
    simp [parseEntryV2, h]
  · intro e w h hw
    cases w <;> simp [parseEntryV2, h, pyTruthy]
    exact absurd rfl hw
  · intro pv h
    simp [parseRestValueV2, h]
  · intro pv h
    simp [parseRestValueV2, h]
  · intro pv w h hw
    cases w <;> simp [parseRestValueV2, h, pyTruthy]
    exact absurd rfl hw
  · intro o l f v h
    simp [buildRow, h]

/-- C5 (witness): the active-flag defaults at concrete entries. -/
theorem c5_absent_flag_defaults_active_witness :
    (parseEntryV2 { label := some "Hot" }).is_active = true ∧
    (parseEntryV2 { isActive := some (PyVal.bool false) }).is_active =
      pyTruthy (PyVal.bool false) ∧
    (parseRestValueV2 { label := some "Hot" }).is_active = true ∧
    buildRow "Account" "Industry" "Industry" { label := "Hot", value := "Hot" } =
      ["Account", "Industry", "Industry", "Hot", "Hot", "Active"] :=
  ⟨c5_absent_flag_defaults_active.1 { label := some "Hot" } rfl,
   c5_absent_flag_defaults_active.2.2.1 { isActive := some (PyVal.bool false) }
     (PyVal.bool false) rfl (by decide),
   c5_absent_flag_defaults_active.2.2.2.1 { label := some "Hot" } rfl,
   c5_absent_flag_defaults_active.2.2.2.2.2.2 "Account" "Industry" "Industry"
     { label := "Hot", value := "Hot" } rfl⟩

lemma parseItemsV2_prefix (items : List RawItem)
    (acc : List PicklistValueDetail) :
    parseItemsV2 items acc = acc ++ (prefixEntries items).map parseEntryV2 := by
  induction items generalizing acc with
  | nil => simp [parseItemsV2, prefixEntries]
  | cons it rest ih =>
    cases it with
    | dict e => simp [parseItemsV2, prefixEntries, ih]
    | other v => simp [parseItemsV2, prefixEntries]

lemma parseItemsG4_prefix (items : List RawItem)
    (acc : List PicklistValueDetail) :
    parseItemsG4 items acc = acc ++ (prefixEntries items).map parseEntryG4 := by
  induction items generalizing acc with
  | nil => simp [parseItemsG4, prefixEntries]
  | cons it rest ih =>
    cases it with
    | dict e => simp [parseItemsG4, prefixEntries, ih]
    | other v => simp [parseItemsG4, prefixEntries]

/-- C6 (counterexample): a malformed item does abort the extraction of the
entries after it — on a list [good A, malformed, good B] the `Version_2`
normalizer returns only A's detail and B's detail is absent, contradicting
"a parse failure for one entry does not abort the others". -/
theorem c6_malformed_aborts_rest_counterexample :
    parseValueSetV2 malformedMeta =
      [{ label := "A", value := "A", is_active := true }] ∧
    ({ label := "B", value := "B", is_active := true } : PicklistValueDetail) ∉
      parseValueSetV2 malformedMeta := by
  decide

/-- C6 (amended): the normalizer is total (never raises — the exception on a
malformed entry is caught inside the function): a missing valueSet or an
empty valueSet dictionary yields `[]`, and on any value list it returns
exactly the parses of the well-formed entries preceding the first malformed
item, dropping that item and everything after it.  This holds for the
`Version_2` and the `GUI_2` variants named by the claim. -/
theorem c6_normalizer_never_raises :
    parseValueSetV2 { valueSet := none } = [] ∧
    (∀ vs : ValueSet, vs.valueSetDefinition = none → vs.value = none →
      parseValueSetV2 { valueSet := some vs } = []) ∧
    (∀ (items : List RawItem) (acc : List PicklistValueDetail),
      parseItemsV2 items acc =
        acc ++ (prefixEntries items).map parseEntryV2) ∧
    parseValueSetG2 { valueSet := none } = [] ∧
    (∀ vs : ValueSet, vs.valueSetDefinition = none → vs.value = none →
      parseValueSetG2 { valueSet := some vs } = []) := by
  refine ⟨rfl, ?_, parseItemsV2_prefix, rfl, ?_⟩
  · intro vs h1 h2
    simp [parseValueSetV2, h1, h2]
  · intro vs h1 h2
    simp [parseValueSetG2, h1, h2]

/-- C6 (witness): the amended behaviour at concrete inputs. -/
theorem c6_normalizer_never_raises_witness :
    parseValueSetV2 { valueSet := some {} } = [] ∧
    parseItemsV2
        [.dict { label := some "A", value := some "A" },
         .other (.str "oops"),
         .dict { label := some "B", value := some "B" }] [] =
      [] ++ (prefixEntries
        [.dict { label := some "A", value := some "A" },
         .other (.str "oops"),
         .dict { label := some "B", value := some "B" }]).map parseEntryV2 :=
  ⟨c6_normalizer_never_raises.2.1 {} rfl rfl,
   c6_normalizer_never_raises.2.2.1
     [.dict { label := some "A", value := some "A" },
      .other (.str "oops"),
      .dict { label := some "B", value := some "B" }] []⟩

lemma parseEntry_agree (e : RawEntry) (h : e.isActive ≠ some PyVal.null) :
    parseEntryV2 e = parseEntryG4 e := by
  rcases he : e.isActive with _ | w
  · simp [parseEntryV2, parseEntryG4, he]
  · cases w <;> simp [parseEntryV2, parseEntryG4, he]
    exact absurd he h

lemma parseItems_agree (items : List RawItem)
    (acc : List PicklistValueDetail)
    (h : ∀ it ∈ items, itemNotNullActive it = true) :
    parseItemsV2 items acc = parseItemsG4 items acc := by
  induction items generalizing acc with
  | nil => rfl
  | cons it rest ih =>
    cases it with
    | dict e =>
      have he : e.isActive ≠ some PyVal.null := by
        have := h (.dict e) (List.mem_cons_self _ _)
        simpa [itemNotNullActive] using this
      rw [parseItemsV2, parseItemsG4, parseEntry_agree e he]
      exact ih _ (fun it hit => h it (List.mem_cons_of_mem _ hit))
    | other v => rfl

/-- C10 (counterexample): on an entry whose `isActive` key holds an explicit
`null`, the `Version_2` normalizer yields an active detail while the `GUI_4`
normalizer (`bool(v.get('isActive', True))`) yields an inactive one, so the
two `_parse_value_set` implementations are not equivalent. -/
theorem c10_normalizers_differ_counterexample :
    parseValueSetV2 nullActiveMeta =
      [{ label := "", value := "", is_active := true }] ∧
    parseValueSetG4 nullActiveMeta =
      [{ label := "", value := "", is_active := false }] ∧
    parseValueSetV2 nullActiveMeta ≠ parseValueSetG4 nullActiveMeta := by
  decide

/-- C10 (amended): the `Version_2` and `GUI_4` normalizers agree on every
metadata in which (a) a present `valueSetDefinition` with an empty value
list is only accompanied by an empty/absent `value` list (otherwise the
`or`-style key selection of GUI_4 falls through to `value` while Version_2
does not), and (b) no reachable entry carries an explicit null `isActive`
(otherwise the active flags differ). -/
theorem c10_normalizers_agree (m : FieldMetadata)
    (h1 : vsdNonemptyCond m = true) (h2 : noNullActiveCond m = true) :
    parseValueSetV2 m = parseValueSetG4 m := by
  obtain ⟨ovs⟩ := m
  rcases ovs with _ | vs
  · rfl
  · obtain ⟨ovsd, oval⟩ := vs
    rcases ovsd with _ | vsd
    · rcases oval with _ | items
      · rfl
      · have h2' : (([] : List RawItem) ++ items).all itemNotNullActive = true := h2
        rw [List.all_eq_true] at h2'
        show parseItemsV2 items [] = parseItemsG4 items []
        exact parseItems_agree items []
          (fun it hit => h2' it (by simpa using hit))
    · obtain ⟨ovv⟩ := vsd
      rcases ovv with _ | vlist
      · rcases oval with _ | items
        · rfl
        · have hitems : items = [] := List.isEmpty_iff.mp h1
          subst hitems
          rfl
      · by_cases hne : vlist.isEmpty = true
        · have hv : vlist = [] := List.isEmpty_iff.mp hne
          subst hv
          rcases oval with _ | items
          · rfl
          · have hitems : items = [] := List.isEmpty_iff.mp h1
            subst hitems
            rfl
        · have h2' : (vlist ++ (oval.getD [])).all itemNotNullActive = true := h2
          rw [List.all_eq_true] at h2'
          show parseItemsV2 vlist [] =
            parseItemsG4 (if vlist.isEmpty = true then oval.getD [] else vlist) []
          rw [if_neg hne]
          exact parseItems_agree vlist []
            (fun it hit => h2' it (List.mem_append_left _ hit))

/-- C10 (witness): the amended equivalence at a concrete metadata value
satisfying both side conditions. -/
theorem c10_normalizers_agree_witness :
    vsdNonemptyCond agreeingMeta = true ∧
    noNullActiveCond agreeingMeta = true ∧
    parseValueSetV2 agreeingMeta = parseValueSetG4 agreeingMeta :=
  ⟨by decide, by decide,
   c10_normalizers_agree agreeingMeta (by decide) (by decide)⟩
